import Mathlib

/-!
Shallow embedding of the supervisory core of the ApiPoller mail-printer
appliance, and proofs about it.

The embedding follows the Python sources:
  * `classes/network_client.py` — `CircuitBreaker` and
    `NetworkClient.request_with_retry`;
  * `classes/recovery_manager.py` — the durable pending-acknowledgment queue
    and the recovery escalation loop;
  * `ApiPoller.py` — the device state machine, the connection-issue
    callbacks, `handle_message`, `ack_message` and `track_print`.

Side effects are made explicit: callbacks are modelled as boolean
"would be invoked" flags (the Python code guards each invocation with a
`if callback:` presence check; we model the case where every callback is
configured), wall-clock time is passed in as a `Nat` parameter, and the
outcome of every external call (HTTP request, connectivity probe, CUPS
poll, modem reboot) is a parameter of the embedded function.
-/

namespace ApiPoller

/-! ### Device state machine (`ApiPoller.py`, `class State`) -/

/-- The `State` enum of `ApiPoller.py`. -/
inductive State where
  | BOOTING
  | IDLE
  | INCOMING_TRANSMISSION
  | MESSAGE_RECEIVED
  | ACKNOWLEDGING
  | OUT_OF_PAPER
  | OUT_OF_INK
  | OUT_OF_INK_AND_PAPER
  | PAPER_JAM
  | WAITING_FOR_CUPS
  | CONNECTION_WEAK
  | NO_CONNECTION
  | CIRCUIT_BREAKER_OPEN
  | MODEM_REBOOTING
  | PRINTER_UNREACHABLE
  deriving DecidableEq, Repr

/-! ### Circuit breaker (`classes/network_client.py`) -/

/-- The `CircuitState` enum. -/
inductive CircuitState where
  | CLOSED
  | OPEN
  | HALF_OPEN
  deriving DecidableEq, Repr

/-- The mutable fields of a `CircuitBreaker` instance.  `failures` is an
`Int` because Python integers are signed (`failures = failure_threshold - 1`
can go negative when the threshold is `0`). -/
structure CircuitBreaker where
  failure_threshold : Int
  cooldown : Nat
  failures : Int
  last_failure_time : Option Nat
  state : CircuitState
  deriving DecidableEq, Repr

/-- A freshly constructed breaker (`CircuitBreaker.__init__`). -/
def CircuitBreaker.mk0 (threshold : Int) (cooldown : Nat) : CircuitBreaker :=
  { failure_threshold := threshold
    cooldown := cooldown
    failures := 0
    last_failure_time := none
    state := CircuitState.CLOSED }

/-- `CircuitBreaker.record_failure`, with the result of
`check_internet_connectivity` passed in as `has_internet` and the current
wall clock as `now`.  Returns the updated breaker and whether
`on_breaker_open` would be invoked. -/
def CircuitBreaker.record_failure (cb : CircuitBreaker) (has_internet : Bool)
    (now : Nat) : CircuitBreaker × Bool :=
  let failures := cb.failures + 1
  let cb := { cb with failures := failures, last_failure_time := some now }
  if failures ≥ cb.failure_threshold ∧ cb.state ≠ CircuitState.OPEN then
    if has_internet then
      ({ cb with state := CircuitState.OPEN }, true)
    else
      ({ cb with failures := cb.failure_threshold - 1 }, false)
  else
    (cb, false)

/-- `CircuitBreaker._reset_unlocked`.  Returns the updated breaker and
whether `on_breaker_close` would be invoked (`was_open`). -/
def CircuitBreaker.reset_unlocked (cb : CircuitBreaker) : CircuitBreaker × Bool :=
  let was_open := cb.state = CircuitState.OPEN
  ({ cb with failures := 0, state := CircuitState.CLOSED }, was_open)

/-- Result of one `CircuitBreaker.call`. -/
inductive CallOutcome where
  | ok
  | circuitOpen
  | err
  deriving DecidableEq, Repr

/-- The observable effect of one `CircuitBreaker.call`. -/
structure CallResult where
  cb : CircuitBreaker
  outcome : CallOutcome
  onOpenInvoked : Bool
  onCloseInvoked : Bool
  deriving DecidableEq, Repr

/-- `CircuitBreaker.call`, with the wrapped function's outcome passed as
`succeeds` and the connectivity-probe result as `has_internet`.  When the
state is `OPEN`, `last_failure_time` is always set (the only transition to
`OPEN`, in `record_failure`, sets it first), so `getD 0` never supplies its
default on a reachable state. -/
def CircuitBreaker.call (cb : CircuitBreaker) (now : Nat)
    (succeeds has_internet : Bool) : CallResult :=
  if cb.state = CircuitState.OPEN ∧
      ¬ (now - cb.last_failure_time.getD 0 > cb.cooldown) then
    { cb := cb, outcome := CallOutcome.circuitOpen
      onOpenInvoked := false, onCloseInvoked := false }
  else
    let cb1 := if cb.state = CircuitState.OPEN then
      { cb with state := CircuitState.HALF_OPEN } else cb
    if succeeds then
      if cb1.state = CircuitState.HALF_OPEN then
        let r := cb1.reset_unlocked
        { cb := r.1, outcome := CallOutcome.ok
          onOpenInvoked := false, onCloseInvoked := r.2 }
      else
        { cb := cb1, outcome := CallOutcome.ok
          onOpenInvoked := false, onCloseInvoked := false }
    else
      let r := cb1.record_failure has_internet now
      { cb := r.1, outcome := CallOutcome.err
        onOpenInvoked := r.2, onCloseInvoked := false }

/-- Iterate `record_failure` over a list of (probe result, time) pairs,
returning every intermediate breaker (after each call, in order). -/
def CircuitBreaker.record_failure_trace (cb : CircuitBreaker) :
    List (Bool × Nat) → List CircuitBreaker
  | [] => []
  | (p, t) :: rest =>
      let cb' := (cb.record_failure p t).1
      cb' :: cb'.record_failure_trace rest

/-! ### `NetworkClient.request_with_retry` (`classes/network_client.py`)

One attempt's outcome, as seen by the retry loop: the request succeeded
(including `raise_for_status`), the breaker rejected it with
`CircuitBreakerOpenException`, or it raised any other exception. -/

inductive AttemptOutcome where
  | ok
  | circuitOpen
  | err
  deriving DecidableEq, Repr

/-- The connection flags of a `NetworkClient` instance. -/
structure ClientConn where
  connection_weak : Bool
  connection_failed : Bool
  deriving DecidableEq, Repr

/-- How `request_with_retry` terminates. -/
inductive ReqResult where
  | success
  | circuitOpenErr
  | raisedLast
  deriving DecidableEq, Repr

/-- The observable effect of one `request_with_retry` call sequence. -/
structure ReqOutcome where
  result : ReqResult
  conn : ClientConn
  weakInvoked : Bool
  lostInvoked : Bool
  restoredInvoked : Bool
  deriving DecidableEq, Repr

/-- The `for attempt in range(max_attempts)` loop of `request_with_retry`.
`outcomes n` is the result of attempt `n`; `fuel` equals
`max_attempts - attempt` so the recursion is structural.  Exhausting the
loop falls through to `raise last_exception` (`ReqResult.raisedLast`). -/
def request_go (outcomes : Nat → AttemptOutcome) (max_attempts : Nat) :
    Nat → Nat → ClientConn → Bool → Bool → Bool → ReqOutcome
  | 0, _, conn, w, l, r =>
      { result := ReqResult.raisedLast, conn := conn
        weakInvoked := w, lostInvoked := l, restoredInvoked := r }
  | fuel + 1, attempt, conn, w, l, r =>
      match outcomes attempt with
      | AttemptOutcome.ok =>
          if conn.connection_failed ∨ conn.connection_weak then
            { result := ReqResult.success
              conn := { connection_weak := false, connection_failed := false }
              weakInvoked := w, lostInvoked := l, restoredInvoked := true }
          else
            { result := ReqResult.success, conn := conn
              weakInvoked := w, lostInvoked := l, restoredInvoked := r }
      | AttemptOutcome.circuitOpen =>
          { result := ReqResult.circuitOpenErr, conn := conn
            weakInvoked := w, lostInvoked := l, restoredInvoked := r }
      | AttemptOutcome.err =>
          let conn' := if attempt = 0 ∧ conn.connection_weak = false ∧
              conn.connection_failed = false
            then { conn with connection_weak := true } else conn
          let w' := if attempt = 0 ∧ conn.connection_weak = false ∧
              conn.connection_failed = false
            then true else w
          if attempt < max_attempts - 1 then
            request_go outcomes max_attempts fuel (attempt + 1) conn' w' l r
          else
            if conn'.connection_failed = false then
              { result := ReqResult.raisedLast
                conn := { connection_weak := false, connection_failed := true }
                weakInvoked := w', lostInvoked := true, restoredInvoked := r }
            else
              { result := ReqResult.raisedLast, conn := conn'
                weakInvoked := w', lostInvoked := l, restoredInvoked := r }

/-- `NetworkClient.request_with_retry`, given the per-attempt outcomes. -/
def request_with_retry (outcomes : Nat → AttemptOutcome) (max_attempts : Nat)
    (conn : ClientConn) : ReqOutcome :=
  request_go outcomes max_attempts max_attempts 0 conn false false false

/-! ### Connection-issue callbacks (`ApiPoller.py`) -/

/-- The transient-issue family tested by every connection callback. -/
def connection_issue_states : List State :=
  [State.CONNECTION_WEAK, State.NO_CONNECTION, State.CIRCUIT_BREAKER_OPEN]

/-- The state-machine view shared by the connection callbacks: the current
`state` and `state_before_connection_issue`. -/
structure DeviceConn where
  state : State
  state_before_connection_issue : Option State
  deriving DecidableEq, Repr

/-- `on_network_connection_weak`. -/
def on_network_connection_weak (d : DeviceConn) : DeviceConn :=
  let prev := if d.state ∉ connection_issue_states then some d.state
              else d.state_before_connection_issue
  { state := State.CONNECTION_WEAK, state_before_connection_issue := prev }

/-- `on_network_connection_lost` (only its state mutation; the recovery
escalation it triggers does not touch these two fields). -/
def on_network_connection_lost (d : DeviceConn) : DeviceConn :=
  let prev := if d.state ∉ connection_issue_states then some d.state
              else d.state_before_connection_issue
  { state := State.NO_CONNECTION, state_before_connection_issue := prev }

/-- `on_circuit_breaker_open`. -/
def on_circuit_breaker_open (d : DeviceConn) : DeviceConn :=
  let prev := if d.state ∉ connection_issue_states then some d.state
              else d.state_before_connection_issue
  { state := State.CIRCUIT_BREAKER_OPEN, state_before_connection_issue := prev }

/-- `on_network_connection_restored`. -/
def on_network_connection_restored (d : DeviceConn) : DeviceConn :=
  if d.state ∈ connection_issue_states then
    match d.state_before_connection_issue with
    | some s => { state := s, state_before_connection_issue := none }
    | none => { state := State.IDLE, state_before_connection_issue := none }
  else d

/-- The three ways of entering the transient-issue family. -/
inductive TransientEntry where
  | weak
  | lost
  | cbOpen
  deriving DecidableEq, Repr

/-- Apply the corresponding entry callback. -/
def TransientEntry.apply : TransientEntry → DeviceConn → DeviceConn
  | TransientEntry.weak => on_network_connection_weak
  | TransientEntry.lost => on_network_connection_lost
  | TransientEntry.cbOpen => on_circuit_breaker_open

/-! ### RecoveryManager (`classes/recovery_manager.py`)

`pending_acks` is a JSON object (a Python dict) persisted after every
mutation; we model it as an association list with the dict's unique-key
discipline, and treat the in-memory value as the durably persisted one
(`_save_queue` rewrites the whole file from it on every mutation). -/

/-- One entry of the pending-ack queue (`ack_data` is kept opaque). -/
structure AckEntry where
  data : String
  retry_count : Nat
  deriving DecidableEq, Repr

/-- The pending-ack queue keyed by ack id. -/
abbrev AckQueue := List (String × AckEntry)

/-- Dict lookup: `self.pending_acks[ack_id]` / `ack_id in self.pending_acks`. -/
def lookupAck : AckQueue → String → Option AckEntry
  | [], _ => none
  | (k, e) :: rest, id => if k = id then some e else lookupAck rest id

/-- Dict item assignment `self.pending_acks[ack_id] = entry`: replace the
existing binding, else append a new one. -/
def setAck (q : AckQueue) (id : String) (e : AckEntry) : AckQueue :=
  if q.any (fun p => p.1 = id) then
    q.map (fun p => if p.1 = id then (id, e) else p)
  else q ++ [(id, e)]

/-- `RecoveryManager.add_pending_ack`: a fresh entry with `retry_count = 0`. -/
def add_pending_ack (q : AckQueue) (id : String) (ack_data : String) : AckQueue :=
  setAck q id { data := ack_data, retry_count := 0 }

/-- `RecoveryManager.remove_pending_ack` (`del` guarded by membership). -/
def remove_pending_ack (q : AckQueue) (id : String) : AckQueue :=
  q.filter (fun p => ¬ p.1 = id)

/-- A `retry_callback()` invocation: returned truthy, returned falsy, or
raised an exception. -/
inductive RetryOutcome where
  | ok
  | failed
  | raised
  deriving DecidableEq, Repr

/-- One iteration's externals in `handle_critical_failure`: whether
`escalate_modem_reboot()` returned `True`, and what the subsequent
`retry_callback()` did (consulted only when the reboot was triggered). -/
structure RebootAttempt where
  reboot_ok : Bool
  retry : RetryOutcome
  deriving DecidableEq, Repr

/-- The `for attempt in range(max_reboots)` loop of
`handle_critical_failure`; `attempts` has one element per iteration.
Returns the function's boolean result and the resulting queue. -/
def handle_critical_failure_loop (id : String) :
    List RebootAttempt → AckQueue → Bool × AckQueue
  | [], q => (false, q)
  | a :: rest, q =>
      if a.reboot_ok then
        match a.retry with
        | RetryOutcome.ok => (true, remove_pending_ack q id)
        | RetryOutcome.failed => handle_critical_failure_loop id rest q
        | RetryOutcome.raised => handle_critical_failure_loop id rest q
      else
        handle_critical_failure_loop id rest q

/-- `RecoveryManager.handle_critical_failure`: add the pending ack to the
durable queue, then run the reboot/retry loop (`attempts.length` plays the
role of `max_reboots`). -/
def handle_critical_failure (q : AckQueue) (id ack_data : String)
    (attempts : List RebootAttempt) : Bool × AckQueue :=
  handle_critical_failure_loop id attempts (add_pending_ack q id ack_data)

/-- The in-place update
`self.pending_acks[ack_id]['retry_count'] = retry_count + 1`, where
`retry_count` was read from the iteration snapshot. -/
def bumpAck (q : AckQueue) (id : String) (rc : Nat) : AckQueue :=
  q.map (fun p => if p.1 = id then (p.1, { p.2 with retry_count := rc + 1 }) else p)

/-- The `for ack_id, ack_entry in acks_to_retry` loop of
`retry_pending_acks`: the first list is the snapshot
`list(self.pending_acks.items())`, the second the live queue. -/
def retry_pending_acks_loop (f : String → RetryOutcome) :
    List (String × AckEntry) → AckQueue → AckQueue
  | [], q => q
  | (id, e) :: rest, q =>
      match f id with
      | RetryOutcome.ok => retry_pending_acks_loop f rest (remove_pending_ack q id)
      | RetryOutcome.failed => retry_pending_acks_loop f rest (bumpAck q id e.retry_count)
      | RetryOutcome.raised => retry_pending_acks_loop f rest (bumpAck q id e.retry_count)

/-- `RecoveryManager.retry_pending_acks`, with `f` giving each entry's
`retry_callback(ack_id, ack_data)` outcome. -/
def retry_pending_acks (f : String → RetryOutcome) (q : AckQueue) : AckQueue :=
  retry_pending_acks_loop f q q

/-! ### `ack_message` (`ApiPoller.py`) -/

/-- `ack_message`'s effect on the pending-ack queue.  `first_ok` is the
result of the initial `try_ack()`; `conn_type` is `get_connection_type()`;
`attempts` are the recovery iterations if escalation is reached. -/
def ack_message (q : AckQueue) (message_id ack_data : String)
    (first_ok : Bool) (conn_type : String)
    (attempts : List RebootAttempt) : AckQueue :=
  if first_ok then q
  else if conn_type = "wifi" then q
  else (handle_critical_failure q message_id ack_data attempts).2

/-! ### `track_print` (`ApiPoller.py`) -/

/-- Effects of one pass through the `current_state == 5` (processing)
branch of `track_print`: the new device state, the new `last_error`, and
whether `log_error`/`send_status` ran on this pass. -/
structure PollEffects where
  devState : State
  last_error : Option String
  logged : Bool
  statusSent : Bool
  deriving DecidableEq, Repr

/-- The `if`/`elif` chain over the fault-reason flags inside the
`current_state == 5` branch of `track_print`: the resulting
`current_error` string and the device state assigned with it. -/
def classify_reasons (reasons : List String) : Option (String × State) :=
  if "marker-supply-empty-error" ∈ reasons ∧ "input-tray-missing" ∈ reasons then
    some ("No paper casette/ink cartridge or both", State.OUT_OF_INK_AND_PAPER)
  else if "media-empty-error" ∈ reasons then
    some ("Out of paper", State.OUT_OF_PAPER)
  else if "marker-supply-empty-error" ∈ reasons then
    some ("Out of ink or ink cartridge missing", State.OUT_OF_INK)
  else if "input-tray-missing" ∈ reasons then
    some ("Paper casette missing or incorrectly inserted", State.OUT_OF_PAPER)
  else if "media-jam-error" ∈ reasons then
    some ("Paper jam", State.PAPER_JAM)
  else none

/-- The `current_state == 5` branch: inspect
`job-printer-state-reasons`, classify (only when `len(reasons) > 1`),
deduplicate against `last_error`, and clear a previously reported fault
when at most one reason remains. -/
def processing_poll (reasons : List String) (devState : State)
    (last_error : Option String) : PollEffects :=
  if 1 < reasons.length then
    match classify_reasons reasons with
    | some ce =>
        if ¬ last_error = some ce.1 then
          { devState := ce.2, last_error := some ce.1, logged := true, statusSent := true }
        else
          { devState := ce.2, last_error := last_error, logged := false, statusSent := false }
    | none =>
        { devState := devState, last_error := last_error, logged := false, statusSent := false }
  else if ¬ last_error = none then
    { devState := State.INCOMING_TRANSMISSION, last_error := none
      logged := false, statusSent := true }
  else
    { devState := devState, last_error := last_error, logged := false, statusSent := false }

/-- One poll of the CUPS queue: the job is listed with its
`job-state` attribute (`none` if the attribute is missing) and its
fault reasons, or it is absent from the queue. -/
inductive JobObs where
  | present (job_state : Option Nat) (reasons : List String)
  | absent
  deriving DecidableEq, Repr

/-- The loop-carried variables of `track_print`. -/
structure TrackSt where
  last_state : Option Nat
  last_error : Option String
  job_found : Bool
  devState : State
  deriving DecidableEq, Repr

/-- One iteration of the `while True` loop of `track_print`.
`t` is the current `time.time()` and `t0` the recorded `start_time`.
`Sum.inr b` means `return b`; `Sum.inl st` means keep polling. -/
def track_step (t t0 : Nat) (obs : JobObs) (st : TrackSt) : TrackSt ⊕ Bool :=
  match obs with
  | JobObs.present job_state reasons =>
      let st := { st with job_found := true }
      match job_state with
      | none => Sum.inr false
      | some code =>
          let st := { st with last_state := some code }
          if code = 5 then
            let eff := processing_poll reasons st.devState st.last_error
            Sum.inl { st with devState := eff.devState, last_error := eff.last_error }
          else if code = 9 then Sum.inr true
          else if code = 7 ∨ code = 8 then Sum.inr false
          else Sum.inl st
  | JobObs.absent =>
      if st.job_found then Sum.inr true
      else if t - t0 > 5 then Sum.inr false
      else Sum.inl st

/-- The whole tracking loop over a finite schedule of timed observations;
`none` means the schedule was exhausted with the loop still polling. -/
def track_run (t0 : Nat) : List (Nat × JobObs) → TrackSt → Option Bool
  | [], _ => none
  | (t, obs) :: rest, st =>
      match track_step t t0 obs st with
      | Sum.inr b => some b
      | Sum.inl st' => track_run t0 rest st'

/-- The loop state at entry to `track_print` (`last_state = None`,
`last_error = None`, `job_found = False`). -/
def track_init (devState : State) : TrackSt :=
  { last_state := none, last_error := none, job_found := false, devState := devState }

/-! ### `handle_message` (`ApiPoller.py`) -/

/-- The outcomes of the external steps taken by `handle_message`:
`image` is `get_image`'s result, `job` is `print_image`'s result,
`tracked` is `track_print`'s result, and `observed` is the global state
seen by `handle_transmission_failure` when it takes the state lock
(`INCOMING_TRANSMISSION` in a sequential run, possibly
`MESSAGE_RECEIVED` when a newer transmission superseded it). -/
structure PipelineEnv where
  image : Option String
  job : Option Int
  tracked : Bool
  observed : State
  deriving DecidableEq, Repr

/-- The observable effect of one `handle_message` call: the last state
written, whether `ack_message` was called, whether the flag-raise thread
was started, and whether the id was appended to `pending_message_ids`. -/
structure HandleResult where
  final : State
  ack_sent : Bool
  flag_started : Bool
  collected : Bool
  deriving DecidableEq, Repr

/-- The inner `handle_transmission_failure`: revert to `IDLE` unless the
state has already moved to `MESSAGE_RECEIVED`. -/
def handle_transmission_failure (observed : State) : State :=
  if ¬ observed = State.MESSAGE_RECEIVED then State.IDLE else observed

/-- `handle_message(config, data)` with `message_id = data.get("id")`. -/
def handle_message (message_id : Option String) (env : PipelineEnv) : HandleResult :=
  match message_id with
  | none =>
      { final := handle_transmission_failure env.observed
        ack_sent := false, flag_started := false, collected := false }
  | some _ =>
      match env.image with
      | none =>
          { final := handle_transmission_failure env.observed
            ack_sent := false, flag_started := false, collected := false }
      | some _ =>
          match env.job with
          | none =>
              { final := handle_transmission_failure env.observed
                ack_sent := false, flag_started := false, collected := false }
          | some _ =>
              if env.tracked then
                { final := State.MESSAGE_RECEIVED
                  ack_sent := true, flag_started := true, collected := true }
              else
                { final := handle_transmission_failure env.observed
                  ack_sent := true, flag_started := false, collected := false }

/-! ## Helper lemmas -/

/-- `record_failure` with a failed connectivity probe never changes the
breaker state and leaves the counter at most `threshold - 1`. -/
lemma record_failure_no_internet (cb : CircuitBreaker) (t : Nat)
    (h : ¬ cb.state = CircuitState.OPEN) :
    (cb.record_failure false t).1.state = cb.state ∧
    (cb.record_failure false t).1.failures ≤ cb.failure_threshold - 1 ∧
    (cb.record_failure false t).1.failure_threshold = cb.failure_threshold := by
  unfold CircuitBreaker.record_failure
  by_cases hge : cb.failures + 1 ≥ cb.failure_threshold
  · simp [hge, h]
  · simp [hge]
    omega

/-- A breaker that is not `OPEN` stays in its state, with counter capped,
along an all-probes-fail failure trace. -/
lemma record_failure_trace_no_internet (cb : CircuitBreaker)
    (events : List (Bool × Nat)) (hst : ¬ cb.state = CircuitState.OPEN)
    (hpr : ∀ e ∈ events, e.1 = false) :
    ∀ cb' ∈ cb.record_failure_trace events,
      cb'.state = cb.state ∧ cb'.failures ≤ cb.failure_threshold - 1 := by
  induction events generalizing cb with
  | nil => intro cb' h; simp [CircuitBreaker.record_failure_trace] at h
  | cons e rest ih =>
      intro cb' h
      obtain ⟨p, t⟩ := e
      have hp : p = false := hpr (p, t) (List.mem_cons_self _ _)
      subst hp
      obtain ⟨h1, h2, h3⟩ := record_failure_no_internet cb t hst
      simp only [CircuitBreaker.record_failure_trace, List.mem_cons] at h
      rcases h with h | h
      · subst h; exact ⟨h1, h2⟩
      · have hst' : ¬ (cb.record_failure false t).1.state = CircuitState.OPEN := by
          rw [h1]; exact hst
        have hpr' : ∀ e ∈ rest, e.1 = false := fun e he => hpr e (List.mem_cons_of_mem _ he)
        obtain ⟨g1, g2⟩ := ih (cb.record_failure false t).1 hst' hpr' cb' h
        exact ⟨by rw [g1, h1], by rw [← h3]; exact g2⟩

/-- While the failure counter stays strictly below the threshold, a
`CLOSED` breaker records failures without any state change. -/
lemma record_failure_trace_below_threshold (cb : CircuitBreaker)
    (events : List (Bool × Nat)) (hst : cb.state = CircuitState.CLOSED)
    (hlt : cb.failures + events.length < cb.failure_threshold) :
    ∀ cb' ∈ cb.record_failure_trace events, cb'.state = CircuitState.CLOSED := by
  induction events generalizing cb with
  | nil => intro cb' h; simp [CircuitBreaker.record_failure_trace] at h
  | cons e rest ih =>
      intro cb' h
      obtain ⟨p, t⟩ := e
      have hnge : ¬ cb.failures + 1 ≥ cb.failure_threshold := by
        simp only [List.length_cons] at hlt
        push_cast at hlt ⊢
        omega
      have hstep : (cb.record_failure p t).1 =
          { cb with failures := cb.failures + 1, last_failure_time := some t } := by
        unfold CircuitBreaker.record_failure
        simp [hnge]
      simp only [CircuitBreaker.record_failure_trace, List.mem_cons] at h
      rcases h with h | h
      · subst h; rw [hstep]; exact hst
      · refine ih (cb.record_failure p t).1 (by rw [hstep]; exact hst) ?_ cb' h
        rw [hstep]
        simp only [List.length_cons] at hlt
        push_cast at hlt ⊢
        omega

/-- Unfolding `lookupAck` on a cons cell. -/
lemma lookupAck_cons (k : String) (e' : AckEntry) (rest : AckQueue) (id : String) :
    lookupAck ((k, e') :: rest) id = if k = id then some e' else lookupAck rest id := rfl

lemma remove_cons (k : String) (e' : AckEntry) (rest : AckQueue) (id' : String) :
    remove_pending_ack ((k, e') :: rest) id' =
      if k = id' then remove_pending_ack rest id'
      else (k, e') :: remove_pending_ack rest id' := by
  by_cases hk : k = id' <;> simp [remove_pending_ack, List.filter_cons, hk]

lemma bumpAck_cons (k : String) (e' : AckEntry) (rest : AckQueue) (id' : String) (rc : Nat) :
    bumpAck ((k, e') :: rest) id' rc =
      (if k = id' then (k, { data := e'.data, retry_count := rc + 1 }) else (k, e')) ::
        bumpAck rest id' rc := by
  by_cases hk : k = id' <;> simp [bumpAck, hk]

lemma lookupAck_map_set (q : AckQueue) (id : String) (e : AckEntry) :
    lookupAck (q.map (fun p => if p.1 = id then (id, e) else p)) id =
      (if q.any (fun p => p.1 = id) then some e else none) := by
  induction q with
  | nil => simp [lookupAck]
  | cons p rest ih =>
      obtain ⟨k, e'⟩ := p
      simp only [List.map_cons, List.any_cons]
      by_cases h : k = id
      · subst h
        rw [if_pos (show (k, e').1 = k from rfl), lookupAck_cons, if_pos rfl]
        simp
      · rw [if_neg h, lookupAck_cons, if_neg h, ih]
        have hd : (decide (k = id)) = false := by simp [h]
        simp only [hd, Bool.false_or]

lemma lookupAck_eq_none_of_any_false (q : AckQueue) (id : String)
    (h : q.any (fun p => p.1 = id) = false) : lookupAck q id = none := by
  induction q with
  | nil => rfl
  | cons p rest ih =>
      obtain ⟨k, e'⟩ := p
      simp only [List.any_cons, Bool.or_eq_false_iff] at h
      have hk : ¬ k = id := by simpa using h.1
      rw [lookupAck_cons, if_neg hk]
      exact ih h.2

lemma lookupAck_append_of_none (q1 q2 : AckQueue) (id : String)
    (h : lookupAck q1 id = none) : lookupAck (q1 ++ q2) id = lookupAck q2 id := by
  induction q1 with
  | nil => rfl
  | cons p rest ih =>
      obtain ⟨k, e'⟩ := p
      rw [lookupAck_cons] at h
      by_cases hk : k = id
      · rw [if_pos hk] at h
        exact absurd h (by simp)
      · rw [if_neg hk] at h
        rw [List.cons_append, lookupAck_cons, if_neg hk]
        exact ih h

lemma lookupAck_setAck (q : AckQueue) (id : String) (e : AckEntry) :
    lookupAck (setAck q id e) id = some e := by
  unfold setAck
  by_cases h : q.any (fun p => p.1 = id)
  · rw [if_pos h, lookupAck_map_set, if_pos h]
  · rw [if_neg h]
    rw [lookupAck_append_of_none _ _ _
      (lookupAck_eq_none_of_any_false q id (Bool.eq_false_iff.mpr h))]
    rw [lookupAck_cons, if_pos rfl]

lemma lookupAck_remove_self (q : AckQueue) (id : String) :
    lookupAck (remove_pending_ack q id) id = none := by
  induction q with
  | nil => rfl
  | cons p rest ih =>
      obtain ⟨k, e'⟩ := p
      rw [remove_cons]
      by_cases hk : k = id
      · rw [if_pos hk]
        exact ih
      · rw [if_neg hk, lookupAck_cons, if_neg hk]
        exact ih

lemma lookupAck_remove_other (q : AckQueue) (id id' : String)
    (h : ¬ id' = id) :
    lookupAck (remove_pending_ack q id') id = lookupAck q id := by
  induction q with
  | nil => rfl
  | cons p rest ih =>
      obtain ⟨k, e'⟩ := p
      rw [remove_cons]
      by_cases hk : k = id'
      · rw [if_pos hk]
        have hk2 : ¬ k = id := fun hh => h (hk.symm.trans hh)
        rw [lookupAck_cons, if_neg hk2]
        exact ih
      · rw [if_neg hk]
        by_cases hk2 : k = id
        · simp only [lookupAck_cons, if_pos hk2]
        · simp only [lookupAck_cons, if_neg hk2]
          exact ih

lemma lookupAck_bump_self (q : AckQueue) (id : String) (rc : Nat) (e : AckEntry)
    (h : lookupAck q id = some e) :
    lookupAck (bumpAck q id rc) id = some { data := e.data, retry_count := rc + 1 } := by
  induction q with
  | nil => exact absurd h (by simp [lookupAck])
  | cons p rest ih =>
      obtain ⟨k, e'⟩ := p
      rw [bumpAck_cons]
      rw [lookupAck_cons] at h
      by_cases hk : k = id
      · rw [if_pos hk] at h
        have he : e' = e := Option.some_inj.mp h
        subst he
        rw [if_pos hk, lookupAck_cons, if_pos hk]
      · rw [if_neg hk] at h
        rw [if_neg hk, lookupAck_cons, if_neg hk]
        exact ih h

lemma lookupAck_bump_other (q : AckQueue) (id id' : String) (rc : Nat)
    (h : ¬ id' = id) :
    lookupAck (bumpAck q id' rc) id = lookupAck q id := by
  induction q with
  | nil => rfl
  | cons p rest ih =>
      obtain ⟨k, e'⟩ := p
      rw [bumpAck_cons]
      by_cases hk : k = id'
      · rw [if_pos hk]
        have hk2 : ¬ k = id := fun hh => h (hk.symm.trans hh)
        rw [lookupAck_cons, if_neg hk2, lookupAck_cons, if_neg hk2]
        exact ih
      · rw [if_neg hk]
        by_cases hk2 : k = id
        · simp only [lookupAck_cons, if_pos hk2]
        · simp only [lookupAck_cons, if_neg hk2]
          exact ih

lemma lookupAck_mem (q : AckQueue) (id : String) (e : AckEntry)
    (h : lookupAck q id = some e) : (id, e) ∈ q := by
  induction q with
  | nil => exact absurd h (by simp [lookupAck])
  | cons p rest ih =>
      obtain ⟨k, e'⟩ := p
      rw [lookupAck_cons] at h
      by_cases hk : k = id
      · rw [if_pos hk] at h
        have he : e' = e := Option.some_inj.mp h
        subst he
        subst hk
        exact List.mem_cons_self _ _
      · rw [if_neg hk] at h
        exact List.mem_cons_of_mem _ (ih h)

/-- Filtering a cons cell in `remove_pending_ack` terms was inlined above;
the loop lemmas below characterize the two RecoveryManager loops. -/
lemma retry_loop_not_mem (f : String → RetryOutcome)
    (snap : List (String × AckEntry)) (q : AckQueue) (id : String)
    (h : id ∉ snap.map Prod.fst) :
    lookupAck (retry_pending_acks_loop f snap q) id = lookupAck q id := by
  induction snap generalizing q with
  | nil => rfl
  | cons p rest ih =>
      obtain ⟨k, e'⟩ := p
      simp only [List.map_cons, List.mem_cons, not_or] at h
      have hk : ¬ k = id := fun hkk => h.1 hkk.symm
      cases hf : f k
      · simp only [retry_pending_acks_loop, hf]
        rw [ih _ h.2, lookupAck_remove_other q id k hk]
      · simp only [retry_pending_acks_loop, hf]
        rw [ih _ h.2, lookupAck_bump_other q id k _ hk]
      · simp only [retry_pending_acks_loop, hf]
        rw [ih _ h.2, lookupAck_bump_other q id k _ hk]

lemma retry_loop_lookup (f : String → RetryOutcome)
    (snap : List (String × AckEntry)) (q : AckQueue) (id : String) (e : AckEntry)
    (hnd : (snap.map Prod.fst).Nodup) (hmem : (id, e) ∈ snap)
    (hq : lookupAck q id = some e) :
    lookupAck (retry_pending_acks_loop f snap q) id =
      (if f id = RetryOutcome.ok then none
       else some { data := e.data, retry_count := e.retry_count + 1 }) := by
  induction snap generalizing q with
  | nil => exact absurd hmem (List.not_mem_nil _)
  | cons p rest ih =>
      obtain ⟨k, e'⟩ := p
      simp only [List.map_cons, List.nodup_cons] at hnd
      rcases List.mem_cons.mp hmem with hhd | htl
      · have hk : k = id := (congrArg Prod.fst hhd).symm
        subst hk
        have he : e' = e := (congrArg Prod.snd hhd).symm
        subst he
        have hnotin : k ∉ rest.map Prod.fst := hnd.1
        cases hf : f k
        · simp only [retry_pending_acks_loop, hf, if_pos rfl]
          rw [retry_loop_not_mem f rest _ k hnotin, lookupAck_remove_self]
          simp
        · simp only [retry_pending_acks_loop, hf]
          rw [retry_loop_not_mem f rest _ k hnotin,
            lookupAck_bump_self q k _ e' hq, if_neg (by simp [hf])]
        · simp only [retry_pending_acks_loop, hf]
          rw [retry_loop_not_mem f rest _ k hnotin,
            lookupAck_bump_self q k _ e' hq, if_neg (by simp [hf])]
      · have hk : ¬ k = id := by
          intro hkk
          subst hkk
          exact hnd.1 (List.mem_map.mpr ⟨(k, e), htl, rfl⟩)
        cases hf : f k
        · simp only [retry_pending_acks_loop, hf]
          exact ih _ hnd.2 htl (by rw [lookupAck_remove_other q id k hk]; exact hq)
        · simp only [retry_pending_acks_loop, hf]
          exact ih _ hnd.2 htl (by rw [lookupAck_bump_other q id k _ hk]; exact hq)
        · simp only [retry_pending_acks_loop, hf]
          exact ih _ hnd.2 htl (by rw [lookupAck_bump_other q id k _ hk]; exact hq)

lemma hcf_loop_false (id : String) (attempts : List RebootAttempt) (q : AckQueue)
    (h : (handle_critical_failure_loop id attempts q).1 = false) :
    (handle_critical_failure_loop id attempts q).2 = q := by
  induction attempts with
  | nil => rfl
  | cons a rest ih =>
      by_cases hr : a.reboot_ok
      · cases hretry : a.retry
        · simp only [handle_critical_failure_loop, hr, if_true, hretry] at h
          simp at h
        · simp only [handle_critical_failure_loop, hr, if_true, hretry] at h ⊢
          exact ih h
        · simp only [handle_critical_failure_loop, hr, if_true, hretry] at h ⊢
          exact ih h
      · simp only [handle_critical_failure_loop, hr, if_false] at h ⊢
        exact ih h

lemma hcf_loop_true (id : String) (attempts : List RebootAttempt) (q : AckQueue)
    (h : (handle_critical_failure_loop id attempts q).1 = true) :
    (handle_critical_failure_loop id attempts q).2 = remove_pending_ack q id ∧
    ∃ a ∈ attempts, a.reboot_ok = true ∧ a.retry = RetryOutcome.ok := by
  induction attempts with
  | nil => exact absurd h (by simp [handle_critical_failure_loop])
  | cons a rest ih =>
      by_cases hr : a.reboot_ok
      · cases hretry : a.retry
        · simp only [handle_critical_failure_loop, hr, if_true, hretry]
          exact ⟨trivial, a, List.mem_cons_self _ _, hr, hretry⟩
        · simp only [handle_critical_failure_loop, hr, if_true, hretry] at h ⊢
          obtain ⟨h1, a', ha', h2⟩ := ih h
          exact ⟨h1, a', List.mem_cons_of_mem _ ha', h2⟩
        · simp only [handle_critical_failure_loop, hr, if_true, hretry] at h ⊢
          obtain ⟨h1, a', ha', h2⟩ := ih h
          exact ⟨h1, a', List.mem_cons_of_mem _ ha', h2⟩
      · simp only [handle_critical_failure_loop, hr, if_false] at h ⊢
        obtain ⟨h1, a', ha', h2⟩ := ih h
        exact ⟨h1, a', List.mem_cons_of_mem _ ha', h2⟩

/-! ## Claims about the circuit breaker -/

/-- C5: for every sequence of `N` consecutive call failures with
`N < failure_threshold`, the circuit breaker remains in the `CLOSED`
state throughout (whatever each connectivity probe would have answered,
and whenever the failures happen). -/
theorem C5_closed_below_threshold (threshold : Int) (cooldown : Nat)
    (events : List (Bool × Nat))
    (hN : (events.length : Int) < threshold) :
    ∀ cb' ∈ (CircuitBreaker.mk0 threshold cooldown).record_failure_trace events,
      cb'.state = CircuitState.CLOSED := by
  apply record_failure_trace_below_threshold
  · rfl
  · simpa [CircuitBreaker.mk0] using hN

/-- Witness for C5: two consecutive failures against a threshold of 3
leave every intermediate breaker `CLOSED`. -/
theorem C5_closed_below_threshold_witness :
    ((([(false, 0), (true, 1)] : List (Bool × Nat)).length : Int) < 3) ∧
    (∀ cb' ∈ (CircuitBreaker.mk0 3 60).record_failure_trace [(false, 0), (true, 1)],
      cb'.state = CircuitState.CLOSED) :=
  ⟨by decide, C5_closed_below_threshold 3 60 [(false, 0), (true, 1)] (by decide)⟩

/-- C4: along any sequence of `record_failure` calls in which every
connectivity probe fails, a breaker that is not `OPEN` never transitions
to `OPEN` (its state never changes at all) and its failure counter never
exceeds `failure_threshold - 1` after any call — even when the count
repeatedly reaches the threshold. -/
theorem C4_no_open_without_internet (cb : CircuitBreaker)
    (events : List (Bool × Nat))
    (hst : ¬ cb.state = CircuitState.OPEN)
    (hpr : ∀ e ∈ events, e.1 = false) :
    ∀ cb' ∈ cb.record_failure_trace events,
      ¬ cb'.state = CircuitState.OPEN ∧
      cb'.failures ≤ cb.failure_threshold - 1 := by
  intro cb' h
  obtain ⟨h1, h2⟩ := record_failure_trace_no_internet cb events hst hpr cb' h
  exact ⟨by rw [h1]; exact hst, h2⟩

/-- Witness for C4: seven probe-failing failures against a threshold of 5,
starting from a fresh breaker; no intermediate breaker is `OPEN` and every
counter value is at most 4. -/
theorem C4_no_open_without_internet_witness :
    (¬ (CircuitBreaker.mk0 5 60).state = CircuitState.OPEN) ∧
    (∀ e ∈ ([(false, 0), (false, 1), (false, 2), (false, 3), (false, 4),
             (false, 5), (false, 6)] : List (Bool × Nat)), e.1 = false) ∧
    (∀ cb' ∈ (CircuitBreaker.mk0 5 60).record_failure_trace
        [(false, 0), (false, 1), (false, 2), (false, 3), (false, 4),
         (false, 5), (false, 6)],
      ¬ cb'.state = CircuitState.OPEN ∧ cb'.failures ≤ (CircuitBreaker.mk0 5 60).failure_threshold - 1) :=
  ⟨by decide, by decide,
    C4_no_open_without_internet (CircuitBreaker.mk0 5 60) _ (by decide) (by decide)⟩

/-- C3 counterexample: a call that succeeds while the breaker is
`HALF_OPEN` does reset the breaker to `CLOSED`, but the on-close callback
is *not* invoked, contrary to the claim: `_reset_unlocked` only invokes
`on_breaker_close` when the state it found was `OPEN` (`was_open`), and on
the success path of `call` the state is `HALF_OPEN`. -/
theorem C3_counterexample :
    (({ failure_threshold := 5, cooldown := 60, failures := 2,
        last_failure_time := some 10,
        state := CircuitState.HALF_OPEN : CircuitBreaker }).call 11 true true).cb.state
      = CircuitState.CLOSED ∧
    ¬ (({ failure_threshold := 5, cooldown := 60, failures := 2,
          last_failure_time := some 10,
          state := CircuitState.HALF_OPEN : CircuitBreaker }).call 11 true true).onCloseInvoked
      = true := by
  decide

/-- C3 (amended): a call that succeeds while the breaker is `HALF_OPEN`
resets it to `CLOSED` with the failure counter zeroed, but the on-close
callback is not invoked (nor is the on-open one), because
`_reset_unlocked` fires `on_breaker_close` only when the state was `OPEN`,
which never holds on this path. -/
theorem C3_half_open_success (cb : CircuitBreaker) (now : Nat)
    (has_internet : Bool) (h : cb.state = CircuitState.HALF_OPEN) :
    cb.call now true has_internet =
      { cb := { cb with failures := 0, state := CircuitState.CLOSED }
        outcome := CallOutcome.ok
        onOpenInvoked := false, onCloseInvoked := false } := by
  unfold CircuitBreaker.call CircuitBreaker.reset_unlocked
  simp [h]

/-- Witness for C3 (amended), at a concrete half-open breaker. -/
theorem C3_half_open_success_witness :
    ({ failure_threshold := 5, cooldown := 60, failures := 2,
       last_failure_time := some 10,
       state := CircuitState.HALF_OPEN : CircuitBreaker }).state = CircuitState.HALF_OPEN ∧
    ({ failure_threshold := 5, cooldown := 60, failures := 2,
       last_failure_time := some 10,
       state := CircuitState.HALF_OPEN : CircuitBreaker }).call 11 true true =
      { cb := { failure_threshold := 5, cooldown := 60, failures := 0,
                last_failure_time := some 10,
                state := CircuitState.CLOSED }
        outcome := CallOutcome.ok
        onOpenInvoked := false, onCloseInvoked := false } :=
  ⟨rfl, C3_half_open_success _ 11 true rfl⟩

/-- C10: a call that succeeds while the breaker is `CLOSED` leaves the
whole breaker — in particular the failure counter — unchanged; successes
in the `CLOSED` state never reset the counter, so failures accumulate
across interleaved successful calls. -/
theorem C10_closed_success_frame (cb : CircuitBreaker) (now : Nat)
    (has_internet : Bool) (h : cb.state = CircuitState.CLOSED) :
    cb.call now true has_internet =
      { cb := cb, outcome := CallOutcome.ok
        onOpenInvoked := false, onCloseInvoked := false } := by
  unfold CircuitBreaker.call
  simp [h]

/-- Witness for C10: a closed breaker that already has 3 recorded failures
keeps them across a successful call. -/
theorem C10_closed_success_frame_witness :
    ({ failure_threshold := 5, cooldown := 60, failures := 3,
       last_failure_time := some 2,
       state := CircuitState.CLOSED : CircuitBreaker }).state = CircuitState.CLOSED ∧
    ({ failure_threshold := 5, cooldown := 60, failures := 3,
       last_failure_time := some 2,
       state := CircuitState.CLOSED : CircuitBreaker }).call 50 true false =
      { cb := { failure_threshold := 5, cooldown := 60, failures := 3,
                last_failure_time := some 2, state := CircuitState.CLOSED }
        outcome := CallOutcome.ok
        onOpenInvoked := false, onCloseInvoked := false } :=
  ⟨rfl, C10_closed_success_frame _ 50 false rfl⟩

/-! ## Claim about the transient-state bookkeeping -/

/-- C8: entering the transient-issue family twice in a row from a
non-transient state records the previous state on the first entry only,
the second entry does not overwrite it, and
`on_network_connection_restored` then restores exactly the state recorded
before the first entry and clears the remembered slot. -/
theorem C8_transient_idempotent (s : State) (p : Option State)
    (e1 e2 : TransientEntry) (hs : s ∉ connection_issue_states) :
    (e1.apply { state := s, state_before_connection_issue := p }).state_before_connection_issue
        = some s ∧
    (e2.apply (e1.apply { state := s, state_before_connection_issue := p })).state_before_connection_issue
        = some s ∧
    on_network_connection_restored
        (e2.apply (e1.apply { state := s, state_before_connection_issue := p })) =
      { state := s, state_before_connection_issue := none } := by
  simp only [connection_issue_states, List.mem_cons, List.not_mem_nil,
    or_false, not_or] at hs
  obtain ⟨h1, h2, h3⟩ := hs
  cases e1 <;> cases e2 <;>
    simp [TransientEntry.apply, on_network_connection_weak,
      on_network_connection_lost, on_circuit_breaker_open,
      on_network_connection_restored, connection_issue_states, h1, h2, h3]

/-- Witness for C8: from `IDLE`, a weak-connection entry followed by a
lost-connection entry restores to `IDLE`. -/
theorem C8_transient_idempotent_witness :
    (State.IDLE ∉ connection_issue_states) ∧
    ((TransientEntry.weak.apply
        { state := State.IDLE, state_before_connection_issue := none }).state_before_connection_issue
        = some State.IDLE ∧
     (TransientEntry.lost.apply (TransientEntry.weak.apply
        { state := State.IDLE, state_before_connection_issue := none })).state_before_connection_issue
        = some State.IDLE ∧
     on_network_connection_restored
        (TransientEntry.lost.apply (TransientEntry.weak.apply
          { state := State.IDLE, state_before_connection_issue := none })) =
      { state := State.IDLE, state_before_connection_issue := none }) :=
  ⟨by decide, C8_transient_idempotent State.IDLE none
    TransientEntry.weak TransientEntry.lost (by decide)⟩

/-! ## Claim about the pending-acknowledgment lifecycle -/

/-- C2 counterexample: when the first `try_ack()` fails while the device
is connected via wifi, `ack_message` returns before ever reaching
`RecoveryManager.handle_critical_failure`, so no pending acknowledgment is
created for the failed critical operation — contrary to the claim that one
is created on the first failure. -/
theorem C2_counterexample :
    ack_message [] "42" "payload" false "wifi"
      [{ reboot_ok := true, retry := RetryOutcome.ok }] = [] ∧
    lookupAck (ack_message [] "42" "payload" false "wifi"
      [{ reboot_ok := true, retry := RetryOutcome.ok }]) "42" = none := by
  decide

/-- C2 (amended): except when the device is connected via wifi (in which
case `ack_message` skips recovery entirely and records nothing), a pending
acknowledgment is created in the durable queue on the first failure of a
critical acknowledgment operation, and it is removed only when a retry
confirms success: if `handle_critical_failure` returns failure the entry
is still present with `retry_count = 0`; if it returns success then some
reboot iteration saw `retry_callback` return truthy and only then was the
entry removed; and `retry_pending_acks` increments an entry's retry
counter on a falsy or throwing retry instead of discarding it, removing it
exactly on a truthy retry. -/
theorem C2_pending_ack_lifecycle :
    (∀ (q : AckQueue) (mid data ct : String) (attempts : List RebootAttempt),
      ¬ ct = "wifi" →
      ((handle_critical_failure q mid data attempts).1 = false →
        lookupAck (ack_message q mid data false ct attempts) mid =
          some { data := data, retry_count := 0 }) ∧
      ((handle_critical_failure q mid data attempts).1 = true →
        lookupAck (ack_message q mid data false ct attempts) mid = none ∧
        ∃ a ∈ attempts, a.reboot_ok = true ∧ a.retry = RetryOutcome.ok)) ∧
    (∀ (f : String → RetryOutcome) (q : AckQueue) (id : String) (e : AckEntry),
      (q.map Prod.fst).Nodup → lookupAck q id = some e →
      (f id = RetryOutcome.ok → lookupAck (retry_pending_acks f q) id = none) ∧
      (¬ f id = RetryOutcome.ok →
        lookupAck (retry_pending_acks f q) id =
          some { data := e.data, retry_count := e.retry_count + 1 })) := by
  constructor
  · intro q mid data ct attempts hct
    have hack : ack_message q mid data false ct attempts =
        (handle_critical_failure q mid data attempts).2 := by
      simp [ack_message, hct]
    constructor
    · intro hfalse
      rw [hack]
      unfold handle_critical_failure at hfalse ⊢
      rw [hcf_loop_false _ _ _ hfalse]
      exact lookupAck_setAck q mid _
    · intro htrue
      unfold handle_critical_failure at htrue
      obtain ⟨h1, hex⟩ := hcf_loop_true _ _ _ htrue
      refine ⟨?_, hex⟩
      rw [hack]
      unfold handle_critical_failure
      rw [h1, lookupAck_remove_self]
  · intro f q id e hnd hq
    have hmain := retry_loop_lookup f q q id e hnd (lookupAck_mem q id e hq) hq
    constructor
    · intro hok
      unfold retry_pending_acks
      rw [hmain, if_pos hok]
    · intro hnok
      unfold retry_pending_acks
      rw [hmain, if_neg hnok]

/-- Witness for C2 (amended): over the LTE uplink, a failed ack is durably
queued with a zero retry counter when every recovery retry fails, and a
startup replay whose callback throws bumps the counter instead of
dropping the entry. -/
theorem C2_pending_ack_lifecycle_witness :
    lookupAck (ack_message [] "42" "payload" false "lte"
      [{ reboot_ok := true, retry := RetryOutcome.failed }]) "42" =
      some { data := "payload", retry_count := 0 } ∧
    lookupAck (retry_pending_acks (fun _ => RetryOutcome.raised)
      [("42", { data := "payload", retry_count := 3 })]) "42" =
      some { data := "payload", retry_count := 4 } :=
  ⟨(C2_pending_ack_lifecycle.1 [] "42" "payload" "lte"
      [{ reboot_ok := true, retry := RetryOutcome.failed }] (by decide)).1 (by decide),
   (C2_pending_ack_lifecycle.2 (fun _ => RetryOutcome.raised)
      [("42", { data := "payload", retry_count := 3 })] "42"
      { data := "payload", retry_count := 3 } (by decide) (by decide)).2 (by decide)⟩

/-! ## Claim about `handle_message` failure handling -/

/-- A `handle_message` environment in which the image download fails
(`get_image` returns `None`), observed state `INCOMING_TRANSMISSION` as in
a sequential run. -/
def downloadFailEnv : PipelineEnv :=
  { image := none, job := none, tracked := false
    observed := State.INCOMING_TRANSMISSION }

/-- C1 counterexample: when the image download fails, `handle_message`
reverts the state and skips the flag, but returns *without* calling
`ack_message` — the acknowledgment is not sent, contrary to the claim
(the same holds for a print-submit failure; only the print-tracking
failure path acknowledges). -/
theorem C1_counterexample :
    downloadFailEnv.image = none ∧
    (handle_message (some "42") downloadFailEnv).flag_started = false ∧
    (handle_message (some "42") downloadFailEnv).final = State.IDLE ∧
    ¬ (handle_message (some "42") downloadFailEnv).ack_sent = true := by
  decide

/-- C1 (amended): for every message whose processing fails at the
image-download, print-submit or print-tracking step, the flag-raise
sequence is not started and the device state reverts to `IDLE` (unless a
newer transmission has already superseded it, i.e. the observed state is
already `MESSAGE_RECEIVED`); the acknowledgment is sent only when the
failure is at the print-tracking step — download and print-submit
failures return without acknowledging. -/
theorem C1_failure_paths (mid : String) (env : PipelineEnv) :
    (env.image = none →
      (handle_message (some mid) env).flag_started = false ∧
      (handle_message (some mid) env).ack_sent = false ∧
      (¬ env.observed = State.MESSAGE_RECEIVED →
        (handle_message (some mid) env).final = State.IDLE) ∧
      (env.observed = State.MESSAGE_RECEIVED →
        (handle_message (some mid) env).final = State.MESSAGE_RECEIVED)) ∧
    (env.job = none →
      (handle_message (some mid) env).flag_started = false ∧
      (handle_message (some mid) env).ack_sent = false ∧
      (¬ env.observed = State.MESSAGE_RECEIVED →
        (handle_message (some mid) env).final = State.IDLE) ∧
      (env.observed = State.MESSAGE_RECEIVED →
        (handle_message (some mid) env).final = State.MESSAGE_RECEIVED)) ∧
    (env.image.isSome → env.job.isSome → env.tracked = false →
      (handle_message (some mid) env).flag_started = false ∧
      (handle_message (some mid) env).ack_sent = true ∧
      (¬ env.observed = State.MESSAGE_RECEIVED →
        (handle_message (some mid) env).final = State.IDLE) ∧
      (env.observed = State.MESSAGE_RECEIVED →
        (handle_message (some mid) env).final = State.MESSAGE_RECEIVED)) := by
  obtain ⟨img, job, tr, obs⟩ := env
  refine ⟨?_, ?_, ?_⟩
  · intro h
    subst h
    by_cases hobs : obs = State.MESSAGE_RECEIVED <;>
      simp [handle_message, handle_transmission_failure, hobs]
  · intro h
    subst h
    cases img <;>
      by_cases hobs : obs = State.MESSAGE_RECEIVED <;>
      simp [handle_message, handle_transmission_failure, hobs]
  · intro h1 h2 h3
    subst h3
    obtain ⟨i, rfl⟩ := Option.isSome_iff_exists.mp h1
    obtain ⟨j, rfl⟩ := Option.isSome_iff_exists.mp h2
    by_cases hobs : obs = State.MESSAGE_RECEIVED <;>
      simp [handle_message, handle_transmission_failure, hobs]

/-- Witness for C1 (amended): a download failure and a tracking failure,
both observed in the sequential `INCOMING_TRANSMISSION` state. -/
theorem C1_failure_paths_witness :
    (downloadFailEnv.image = none ∧
      (handle_message (some "42") downloadFailEnv).flag_started = false ∧
      (handle_message (some "42") downloadFailEnv).ack_sent = false ∧
      (¬ downloadFailEnv.observed = State.MESSAGE_RECEIVED →
        (handle_message (some "42") downloadFailEnv).final = State.IDLE) ∧
      (downloadFailEnv.observed = State.MESSAGE_RECEIVED →
        (handle_message (some "42") downloadFailEnv).final = State.MESSAGE_RECEIVED)) ∧
    (({ image := some "images/a.jpg", job := some 7, tracked := false
        observed := State.INCOMING_TRANSMISSION : PipelineEnv }).image.isSome →
      ({ image := some "images/a.jpg", job := some 7, tracked := false
         observed := State.INCOMING_TRANSMISSION : PipelineEnv }).job.isSome →
      ({ image := some "images/a.jpg", job := some 7, tracked := false
         observed := State.INCOMING_TRANSMISSION : PipelineEnv }).tracked = false →
      (handle_message (some "42")
          { image := some "images/a.jpg", job := some 7, tracked := false
            observed := State.INCOMING_TRANSMISSION }).flag_started = false ∧
      (handle_message (some "42")
          { image := some "images/a.jpg", job := some 7, tracked := false
            observed := State.INCOMING_TRANSMISSION }).ack_sent = true ∧
      (¬ ({ image := some "images/a.jpg", job := some 7, tracked := false
            observed := State.INCOMING_TRANSMISSION : PipelineEnv }).observed
            = State.MESSAGE_RECEIVED →
        (handle_message (some "42")
            { image := some "images/a.jpg", job := some 7, tracked := false
              observed := State.INCOMING_TRANSMISSION }).final = State.IDLE) ∧
      (({ image := some "images/a.jpg", job := some 7, tracked := false
          observed := State.INCOMING_TRANSMISSION : PipelineEnv }).observed
            = State.MESSAGE_RECEIVED →
        (handle_message (some "42")
            { image := some "images/a.jpg", job := some 7, tracked := false
              observed := State.INCOMING_TRANSMISSION }).final = State.MESSAGE_RECEIVED)) :=
  ⟨⟨rfl, (C1_failure_paths "42" downloadFailEnv).1 rfl⟩,
   (C1_failure_paths "42"
      { image := some "images/a.jpg", job := some 7, tracked := false
        observed := State.INCOMING_TRANSMISSION }).2.2⟩

/-! ## Claim about fault classification in `track_print` -/

/-- When the chain classifies, the processing branch assigns the
classified state and remembers the classified error string. -/
lemma processing_poll_classified (reasons : List String) (dev : State)
    (le : Option String) (ce : String × State)
    (hlen : 1 < reasons.length) (hc : classify_reasons reasons = some ce) :
    (processing_poll reasons dev le).devState = ce.2 ∧
    (processing_poll reasons dev le).last_error = some ce.1 := by
  unfold processing_poll
  rw [if_pos hlen, hc]
  by_cases hde : le = some ce.1
  · simp only [if_neg (not_not_intro hde)]
    exact ⟨by simp, by simp [hde]⟩
  · simp only [if_pos hde]
    exact ⟨by simp, by simp⟩

/-- C6 counterexample: a single `media-empty-error` fault reason does
*not* classify, because the code only classifies when
`len(reasons) > 1`; the device state is left unchanged instead of
becoming `OUT_OF_PAPER` as the claim requires. -/
theorem C6_counterexample :
    (processing_poll ["media-empty-error"] State.INCOMING_TRANSMISSION none).devState
      = State.INCOMING_TRANSMISSION ∧
    ¬ (processing_poll ["media-empty-error"] State.INCOMING_TRANSMISSION none).devState
      = State.OUT_OF_PAPER := by
  decide

/-- C6 (amended): for every poll of a job stalled in the Processing state
*in which more than one fault-reason flag is present*, the flags are
classified in order: ink-empty and tray-missing together imply
`OUT_OF_INK_AND_PAPER`; otherwise media-empty implies `OUT_OF_PAPER`;
otherwise marker-empty implies `OUT_OF_INK`; otherwise tray-missing alone
implies `OUT_OF_PAPER`; otherwise media-jam implies `PAPER_JAM`.  Each
distinct fault is reported (logged and a status send triggered) at most
once while it persists — an immediate re-poll with the same reasons logs
and sends nothing — and when the fault reasons drop to at most one flag
while the job is still Processing, the device state reverts to
`INCOMING_TRANSMISSION` and the remembered fault is cleared. -/
theorem C6_fault_classification (reasons : List String) (dev : State)
    (le : Option String) :
    ((1 < reasons.length → "marker-supply-empty-error" ∈ reasons →
        "input-tray-missing" ∈ reasons →
        (processing_poll reasons dev le).devState = State.OUT_OF_INK_AND_PAPER) ∧
     (1 < reasons.length → "media-empty-error" ∈ reasons →
        ¬ ("marker-supply-empty-error" ∈ reasons ∧ "input-tray-missing" ∈ reasons) →
        (processing_poll reasons dev le).devState = State.OUT_OF_PAPER) ∧
     (1 < reasons.length → "marker-supply-empty-error" ∈ reasons →
        ¬ "input-tray-missing" ∈ reasons → ¬ "media-empty-error" ∈ reasons →
        (processing_poll reasons dev le).devState = State.OUT_OF_INK) ∧
     (1 < reasons.length → "input-tray-missing" ∈ reasons →
        ¬ "marker-supply-empty-error" ∈ reasons → ¬ "media-empty-error" ∈ reasons →
        (processing_poll reasons dev le).devState = State.OUT_OF_PAPER) ∧
     (1 < reasons.length → "media-jam-error" ∈ reasons →
        ¬ "marker-supply-empty-error" ∈ reasons → ¬ "input-tray-missing" ∈ reasons →
        ¬ "media-empty-error" ∈ reasons →
        (processing_poll reasons dev le).devState = State.PAPER_JAM)) ∧
    ((processing_poll reasons (processing_poll reasons dev le).devState
        (processing_poll reasons dev le).last_error).logged = false ∧
     (processing_poll reasons (processing_poll reasons dev le).devState
        (processing_poll reasons dev le).last_error).statusSent = false) ∧
    (reasons.length ≤ 1 → ¬ le = none →
      (processing_poll reasons dev le).devState = State.INCOMING_TRANSMISSION ∧
      (processing_poll reasons dev le).last_error = none ∧
      (processing_poll reasons dev le).statusSent = true) := by
  refine ⟨⟨?_, ?_, ?_, ?_, ?_⟩, ?_, ?_⟩
  · intro hlen h1 h2
    exact (processing_poll_classified reasons dev le
      ("No paper casette/ink cartridge or both", State.OUT_OF_INK_AND_PAPER) hlen
      (by simp [classify_reasons, h1, h2])).1
  · intro hlen h1 h2
    exact (processing_poll_classified reasons dev le
      ("Out of paper", State.OUT_OF_PAPER) hlen
      (by simp [classify_reasons, h1, h2])).1
  · intro hlen h1 h2 h3
    exact (processing_poll_classified reasons dev le
      ("Out of ink or ink cartridge missing", State.OUT_OF_INK) hlen
      (by simp [classify_reasons, h1, h2, h3])).1
  · intro hlen h1 h2 h3
    exact (processing_poll_classified reasons dev le
      ("Paper casette missing or incorrectly inserted", State.OUT_OF_PAPER) hlen
      (by simp [classify_reasons, h1, h2, h3])).1
  · intro hlen h1 h2 h3 h4
    exact (processing_poll_classified reasons dev le
      ("Paper jam", State.PAPER_JAM) hlen
      (by simp [classify_reasons, h1, h2, h3, h4])).1
  · by_cases hlen : 1 < reasons.length
    · cases hc : classify_reasons reasons with
      | some ce =>
          have h2 := (processing_poll_classified reasons dev le ce hlen hc).2
          have hsecond : ∀ d, (processing_poll reasons d (some ce.1)).logged = false ∧
              (processing_poll reasons d (some ce.1)).statusSent = false := by
            intro d
            unfold processing_poll
            rw [if_pos hlen, hc]
            simp
          rw [h2]
          exact hsecond _
      | none =>
          have h1 : processing_poll reasons dev le =
              { devState := dev, last_error := le, logged := false, statusSent := false } := by
            unfold processing_poll
            rw [if_pos hlen, hc]
          simp [h1]
    · by_cases hle : le = none
      · have h1 : processing_poll reasons dev le =
            { devState := dev, last_error := le, logged := false, statusSent := false } := by
          unfold processing_poll
          rw [if_neg hlen, if_neg (not_not_intro hle)]
        subst hle
        simp [h1]
      · have h1 : processing_poll reasons dev le =
            { devState := State.INCOMING_TRANSMISSION, last_error := none
              logged := false, statusSent := true } := by
          unfold processing_poll
          rw [if_neg hlen, if_pos hle]
        have h2 : processing_poll reasons State.INCOMING_TRANSMISSION none =
            { devState := State.INCOMING_TRANSMISSION, last_error := none
              logged := false, statusSent := false } := by
          unfold processing_poll
          rw [if_neg hlen, if_neg (not_not_intro rfl)]
        simp [h1, h2]
  · intro hlen2 hle
    have hnlen : ¬ 1 < reasons.length := by omega
    unfold processing_poll
    rw [if_neg hnlen, if_pos hle]
    exact ⟨rfl, rfl, rfl⟩

/-- Witness for C6 (amended): a media-empty fault accompanied by a second
reason flag classifies as `OUT_OF_PAPER`, and a later poll where only one
flag remains clears the fault back to `INCOMING_TRANSMISSION` with a
status send. -/
theorem C6_fault_classification_witness :
    (processing_poll ["media-empty-error", "marker-waste-almost-full"]
        State.INCOMING_TRANSMISSION none).devState = State.OUT_OF_PAPER ∧
    ((["cups-waiting-for-job-completed"] : List String).length ≤ 1 ∧
     (processing_poll ["cups-waiting-for-job-completed"] State.OUT_OF_PAPER
        (some "Out of paper")).devState = State.INCOMING_TRANSMISSION ∧
     (processing_poll ["cups-waiting-for-job-completed"] State.OUT_OF_PAPER
        (some "Out of paper")).last_error = none ∧
     (processing_poll ["cups-waiting-for-job-completed"] State.OUT_OF_PAPER
        (some "Out of paper")).statusSent = true) :=
  ⟨(C6_fault_classification ["media-empty-error", "marker-waste-almost-full"]
      State.INCOMING_TRANSMISSION none).1.2.1 (by decide) (by decide) (by decide),
   ⟨by decide,
    (C6_fault_classification ["cups-waiting-for-job-completed"] State.OUT_OF_PAPER
      (some "Out of paper")).2.2 (by decide) (by decide)⟩⟩

/-! ## Claim about terminal classification in `track_print` -/

/-- C7: `track_print` returns success exactly when the job reaches the
completed state code (9), or disappears from the queue after having been
observed at least once; it returns failure when the job reaches the
canceled (7) or aborted (8) state code, when its state attribute is
missing, or when it is never observed within the 5-second grace window;
any present observation marks the job as found; and every terminal outcome
stops polling — the remainder of the schedule is ignored. -/
theorem C7_terminal_classification (t t0 : Nat) (st : TrackSt) :
    (∀ rs, track_step t t0 (JobObs.present (some 9) rs) st = Sum.inr true) ∧
    (∀ code rs, code = 7 ∨ code = 8 →
      track_step t t0 (JobObs.present (some code) rs) st = Sum.inr false) ∧
    (∀ rs, track_step t t0 (JobObs.present none rs) st = Sum.inr false) ∧
    (st.job_found = true → track_step t t0 JobObs.absent st = Sum.inr true) ∧
    (st.job_found = false → t - t0 > 5 →
      track_step t t0 JobObs.absent st = Sum.inr false) ∧
    (st.job_found = false → ¬ t - t0 > 5 →
      track_step t t0 JobObs.absent st = Sum.inl st) ∧
    (∀ code rs st2, track_step t t0 (JobObs.present (some code) rs) st = Sum.inl st2 →
      st2.job_found = true) ∧
    (∀ obs, track_step t t0 obs st = Sum.inr true →
      (∃ rs, obs = JobObs.present (some 9) rs) ∨
      (obs = JobObs.absent ∧ st.job_found = true)) ∧
    (∀ obs, track_step t t0 obs st = Sum.inr false →
      (∃ rs, obs = JobObs.present none rs) ∨
      (∃ code rs, obs = JobObs.present (some code) rs ∧ (code = 7 ∨ code = 8)) ∨
      (obs = JobObs.absent ∧ st.job_found = false ∧ t - t0 > 5)) ∧
    (∀ obs b rest rest2, track_step t t0 obs st = Sum.inr b →
      track_run t0 ((t, obs) :: rest) st = some b ∧
      track_run t0 ((t, obs) :: rest) st = track_run t0 ((t, obs) :: rest2) st) := by
  refine ⟨?_, ?_, ?_, ?_, ?_, ?_, ?_, ?_, ?_, ?_⟩
  · intro rs
    simp [track_step]
  · intro code rs h
    rcases h with rfl | rfl <;> simp [track_step]
  · intro rs
    simp [track_step]
  · intro h
    simp [track_step, h]
  · intro h1 h2
    simp [track_step, h1, h2]
  · intro h1 h2
    simp [track_step, h1, h2]
  · intro code rs st2 h
    by_cases h5 : code = 5
    · subst h5
      simp [track_step] at h
      subst h
      rfl
    · by_cases h9 : code = 9
      · subst h9
        simp [track_step] at h
      · by_cases h78 : code = 7 ∨ code = 8
        · simp [track_step, h5, h9, h78] at h
        · simp [track_step, h5, h9, h78] at h
          subst h
          rfl
  · intro obs h
    cases obs with
    | present js rs =>
        cases js with
        | none => simp [track_step] at h
        | some code =>
            by_cases h5 : code = 5
            · subst h5
              simp [track_step] at h
            · by_cases h9 : code = 9
              · subst h9
                exact Or.inl ⟨rs, rfl⟩
              · by_cases h78 : code = 7 ∨ code = 8
                · simp [track_step, h5, h9, h78] at h
                · simp [track_step, h5, h9, h78] at h
    | absent =>
        by_cases hf : st.job_found = true
        · exact Or.inr ⟨rfl, hf⟩
        · have hf2 : st.job_found = false := by
            revert hf
            cases st.job_found <;> simp
          by_cases hgr : t - t0 > 5
          · simp [track_step, hf2, hgr] at h
          · simp [track_step, hf2, hgr] at h
  · intro obs h
    cases obs with
    | present js rs =>
        cases js with
        | none => exact Or.inl ⟨rs, rfl⟩
        | some code =>
            by_cases h78 : code = 7 ∨ code = 8
            · exact Or.inr (Or.inl ⟨code, rs, rfl, h78⟩)
            · by_cases h5 : code = 5
              · subst h5
                simp [track_step] at h
              · by_cases h9 : code = 9
                · subst h9
                  simp [track_step, h5] at h
                · simp [track_step, h5, h9, h78] at h
    | absent =>
        by_cases hf : st.job_found = true
        · simp [track_step, hf] at h
        · have hf2 : st.job_found = false := by
            revert hf
            cases st.job_found <;> simp
          by_cases hgr : t - t0 > 5
          · exact Or.inr (Or.inr ⟨rfl, hf2, hgr⟩)
          · simp [track_step, hf2, hgr] at h
  · intro obs b rest rest2 h
    constructor
    · simp [track_run, h]
    · simp [track_run, h]

/-- Witness for C7: a job observed processing, then canceled, stops
tracking with a failure even though later observations would have shown it
completed. -/
theorem C7_terminal_classification_witness :
    ((7 : Nat) = 7 ∨ (7 : Nat) = 8) ∧
    track_step 4 0 (JobObs.present (some 7) []) (track_init State.INCOMING_TRANSMISSION)
      = Sum.inr false ∧
    ((track_init State.INCOMING_TRANSMISSION).job_found = false ∧
      ¬ (4 : Nat) - 0 > 5 ∧
      track_step 4 0 JobObs.absent (track_init State.INCOMING_TRANSMISSION)
        = Sum.inl (track_init State.INCOMING_TRANSMISSION)) ∧
    track_run 0 [(4, JobObs.present (some 7) []), (6, JobObs.present (some 9) [])]
      (track_init State.INCOMING_TRANSMISSION) = some false :=
  ⟨Or.inl rfl,
   (C7_terminal_classification 4 0 (track_init State.INCOMING_TRANSMISSION)).2.1
     7 [] (Or.inl rfl),
   ⟨rfl, by decide,
    (C7_terminal_classification 4 0 (track_init State.INCOMING_TRANSMISSION)).2.2.2.2.2.1
      rfl (by decide)⟩,
   ((C7_terminal_classification 4 0 (track_init State.INCOMING_TRANSMISSION)).2.2.2.2.2.2.2.2.2
      (JobObs.present (some 7) []) false [(6, JobObs.present (some 9) [])] []
      ((C7_terminal_classification 4 0 (track_init State.INCOMING_TRANSMISSION)).2.1
        7 [] (Or.inl rfl))).1⟩

/-! ## Claim about `request_with_retry` callbacks -/

/-- Once the weak-callback flag is set it persists to the end of the
retry loop. -/
lemma request_go_weak_persists (o : Nat → AttemptOutcome) (m : Nat) :
    ∀ fuel att conn l r,
      (request_go o m fuel att conn true l r).weakInvoked = true := by
  intro fuel
  induction fuel with
  | zero => intro att conn l r; rfl
  | succ f ih =>
      intro att conn l r
      cases ho : o att with
      | ok =>
          simp only [request_go, ho]
          split <;> rfl
      | circuitOpen =>
          simp [request_go, ho]
      | err =>
          simp only [request_go, ho, ite_self]
          by_cases hlt : att < m - 1
          · rw [if_pos hlt]
            exact ih (att + 1) _ l r
          · rw [if_neg hlt]
            split <;> split <;> rfl

/-- The error branch never changes `connection_failed` before the final
attempt, so along an all-error run the loop exhausts, raises the last
exception, and invokes the lost-callback exactly when the client was not
already marked failed. -/
lemma request_go_all_err (o : Nat → AttemptOutcome) (m : Nat) :
    ∀ fuel att conn w l r,
      1 ≤ fuel → att + fuel = m →
      (∀ i, att ≤ i → i < m → o i = AttemptOutcome.err) →
      (request_go o m fuel att conn w l r).result = ReqResult.raisedLast ∧
      (request_go o m fuel att conn w l r).lostInvoked =
        (l || !conn.connection_failed) := by
  intro fuel
  induction fuel with
  | zero => intro att conn w l r h1 _ _; omega
  | succ f ih =>
      intro att conn w l r _ hm herr
      have hattm : att < m := by omega
      simp only [request_go, herr att le_rfl hattm]
      by_cases hfirst : att = 0 ∧ conn.connection_weak = false ∧
          conn.connection_failed = false
      · rw [if_pos hfirst, if_pos hfirst]
        by_cases hlt : att < m - 1
        · rw [if_pos hlt]
          have hf1 : 1 ≤ f := by omega
          obtain ⟨g1, g2⟩ := ih (att + 1) { conn with connection_weak := true } true l r
            hf1 (by omega) (fun i hi1 hi2 => herr i (by omega) hi2)
          exact ⟨g1, by rw [g2]⟩
        · rw [if_neg hlt]
          rw [if_pos (show ({ conn with connection_weak := true } :
            ClientConn).connection_failed = false from hfirst.2.2)]
          refine ⟨rfl, ?_⟩
          rw [hfirst.2.2]
          simp
      · rw [if_neg hfirst, if_neg hfirst]
        by_cases hlt : att < m - 1
        · rw [if_pos hlt]
          have hf1 : 1 ≤ f := by omega
          exact ih (att + 1) conn w l r hf1 (by omega)
            (fun i hi1 hi2 => herr i (by omega) hi2)
        · rw [if_neg hlt]
          by_cases hcf : conn.connection_failed = false
          · rw [if_pos hcf]
            refine ⟨rfl, ?_⟩
            rw [hcf]
            simp
          · rw [if_neg hcf]
            refine ⟨rfl, ?_⟩
            have : conn.connection_failed = true := by
              revert hcf
              cases conn.connection_failed <;> simp
            rw [this]
            simp

/-- A circuit-open rejection after a (possibly empty) prefix of errors
ends the call sequence immediately with the circuit-open error, leaving
the lost/restored callbacks untouched. -/
lemma request_go_circuit_open (o : Nat → AttemptOutcome) (m : Nat) :
    ∀ fuel att conn w l r (k : Nat),
      att + fuel = m → att ≤ k → k < m →
      o k = AttemptOutcome.circuitOpen →
      (∀ i, att ≤ i → i < k → o i = AttemptOutcome.err) →
      (request_go o m fuel att conn w l r).result = ReqResult.circuitOpenErr ∧
      (request_go o m fuel att conn w l r).lostInvoked = l ∧
      (request_go o m fuel att conn w l r).restoredInvoked = r := by
  intro fuel
  induction fuel with
  | zero => intro att conn w l r k hm hak hkm _ _; omega
  | succ f ih =>
      intro att conn w l r k hm hak hkm hk herr
      by_cases hatk : att = k
      · subst hatk
        simp [request_go, hk]
      · have hlt : att < k := lt_of_le_of_ne hak hatk
        simp only [request_go, herr att le_rfl hlt]
        rw [if_pos (show att < m - 1 by omega)]
        split
        · exact ih (att + 1) _ _ l r k (by omega) (by omega) hkm hk
            (fun i hi1 hi2 => herr i (by omega) hi2)
        · exact ih (att + 1) _ _ l r k (by omega) (by omega) hkm hk
            (fun i hi1 hi2 => herr i (by omega) hi2)

/-- C9 counterexample: a client already marked `connection_failed` (a
previous call sequence exhausted its retries and no success intervened)
exhausts all attempts and raises the last exception, but
`on_connection_lost` is *not* invoked, because `request_with_retry` only
invokes it `if not self.connection_failed`. -/
theorem C9_counterexample :
    (request_with_retry (fun _ => AttemptOutcome.err) 3
      { connection_weak := false, connection_failed := true }).result
        = ReqResult.raisedLast ∧
    ¬ (request_with_retry (fun _ => AttemptOutcome.err) 3
      { connection_weak := false, connection_failed := true }).lostInvoked = true := by
  decide

/-- C9 (amended): in `request_with_retry`, on a first-attempt failure of a
call sequence, if the client is not already marked weak or failed, the
`on_connection_weak` callback is invoked; if all `max_attempts` attempts
fail, the last exception is raised and `on_connection_lost` is invoked
exactly when the client was not already marked `connection_failed`; and
when the circuit breaker rejects an attempt as open (after a prefix of
ordinary failures), the call sequence ends immediately with the
circuit-open error, without `on_connection_lost` or
`on_connection_restored`. -/
theorem C9_retry_callbacks (o : Nat → AttemptOutcome) (m : Nat) (conn : ClientConn) :
    (1 ≤ m → o 0 = AttemptOutcome.err →
      conn.connection_weak = false → conn.connection_failed = false →
      (request_with_retry o m conn).weakInvoked = true) ∧
    (1 ≤ m → (∀ i, i < m → o i = AttemptOutcome.err) →
      (request_with_retry o m conn).result = ReqResult.raisedLast ∧
      (conn.connection_failed = false → (request_with_retry o m conn).lostInvoked = true) ∧
      (conn.connection_failed = true → (request_with_retry o m conn).lostInvoked = false)) ∧
    (∀ k, k < m → o k = AttemptOutcome.circuitOpen →
      (∀ i, i < k → o i = AttemptOutcome.err) →
      (request_with_retry o m conn).result = ReqResult.circuitOpenErr ∧
      (request_with_retry o m conn).lostInvoked = false ∧
      (request_with_retry o m conn).restoredInvoked = false) := by
  refine ⟨?_, ?_, ?_⟩
  · intro hm h0 hw hf
    unfold request_with_retry
    obtain ⟨f, rfl⟩ : ∃ f, m = f + 1 := ⟨m - 1, by omega⟩
    by_cases hlt : 0 < f
    · have hstep : request_go o (f + 1) (f + 1) 0 conn false false false =
          request_go o (f + 1) f 1 { conn with connection_weak := true } true false false := by
        simp [request_go, h0, hw, hf]
        intro hf0
        exact absurd hlt (by omega)
      rw [hstep]
      exact request_go_weak_persists o (f + 1) f 1 _ false false
    · have hf0 : f = 0 := by omega
      subst hf0
      simp [request_go, h0, hw, hf]
  · intro hm herr
    obtain ⟨g1, g2⟩ := request_go_all_err o m m 0 conn false false false hm
      (by omega) (fun i _ hi => herr i hi)
    refine ⟨g1, ?_, ?_⟩
    · intro hcf
      unfold request_with_retry
      rw [g2, hcf]
      simp
    · intro hcf
      unfold request_with_retry
      rw [g2, hcf]
      simp
  · intro k hkm hk herr
    exact request_go_circuit_open o m m 0 conn false false false k (by omega)
      (Nat.zero_le k) hkm hk (fun i _ hi => herr i hi)

/-- Witness for C9 (amended): a fresh client whose three attempts all
fail invokes both the weak and the lost callbacks and raises; a client
whose second attempt is rejected by the open breaker ends with the
circuit-open error and no lost callback. -/
theorem C9_retry_callbacks_witness :
    ((1 : Nat) ≤ 3 ∧
      (request_with_retry (fun _ => AttemptOutcome.err) 3
        { connection_weak := false, connection_failed := false }).weakInvoked = true ∧
      (request_with_retry (fun _ => AttemptOutcome.err) 3
        { connection_weak := false, connection_failed := false }).result
          = ReqResult.raisedLast ∧
      (request_with_retry (fun _ => AttemptOutcome.err) 3
        { connection_weak := false, connection_failed := false }).lostInvoked = true) ∧
    ((1 : Nat) < 3 ∧
      (request_with_retry
        (fun i => if i = 0 then AttemptOutcome.err else AttemptOutcome.circuitOpen) 3
        { connection_weak := false, connection_failed := false }).result
          = ReqResult.circuitOpenErr ∧
      (request_with_retry
        (fun i => if i = 0 then AttemptOutcome.err else AttemptOutcome.circuitOpen) 3
        { connection_weak := false, connection_failed := false }).lostInvoked = false) :=
  ⟨⟨by decide,
    (C9_retry_callbacks (fun _ => AttemptOutcome.err) 3
      { connection_weak := false, connection_failed := false }).1
      (by decide) rfl rfl rfl,
    ((C9_retry_callbacks (fun _ => AttemptOutcome.err) 3
      { connection_weak := false, connection_failed := false }).2.1
      (by decide) (fun i _ => rfl)).1,
    ((C9_retry_callbacks (fun _ => AttemptOutcome.err) 3
      { connection_weak := false, connection_failed := false }).2.1
      (by decide) (fun i _ => rfl)).2.1 rfl⟩,
   ⟨by decide,
    ((C9_retry_callbacks
        (fun i => if i = 0 then AttemptOutcome.err else AttemptOutcome.circuitOpen) 3
        { connection_weak := false, connection_failed := false }).2.2 1
      (by decide) (by decide) (fun i hi => by
        interval_cases i
        · rfl)).1,
    ((C9_retry_callbacks
        (fun i => if i = 0 then AttemptOutcome.err else AttemptOutcome.circuitOpen) 3
        { connection_weak := false, connection_failed := false }).2.2 1
      (by decide) (by decide) (fun i hi => by
        interval_cases i
        · rfl)).2.1⟩⟩

end ApiPoller
